import Mathlib

/-!
Verification development for the MSAL-Auth-Library token-lifecycle core
(`src/core/auth-service.ts`) and its React adapter
(`src/react/use-authentication.ts`).

The TypeScript class `MsalAuthService` is embedded shallowly: its mutable
fields become a `ServiceState` record, each method becomes a pure function
from state (plus an oracle describing the external MSAL SDK's behaviour at
each provider round-trip) to a result and a new state.  Thrown JavaScript
errors become an explicit `AuthErr` sum.  Times are integer milliseconds
(`Date.now()` / `Date.getTime()` values).  JavaScript truthiness of the
cached-token fields (empty string and numeric 0 are falsy) is modelled
explicitly.
-/

namespace MsalAuth

/-- `AuthFlowType` from `core/types.ts`: `'popup' | 'redirect'`. -/
inductive FlowType where
  | popup
  | redirect
  deriving DecidableEq

/-- The fields of `MsalAuthConfig` (from `core/types.ts`) that the embedded
methods read.  `flowType` and `tokenRenewalOffsetSeconds` are optional in the
source; `tokenRenewalOffsetSeconds` defaults to 300 at the point of use. -/
structure MsalAuthConfig where
  clientId : String
  scopes : List String
  flowType : Option FlowType
  tokenRenewalOffsetSeconds : Option Int
  deriving DecidableEq

/-- The success shape of a provider token call: `AuthenticationResult`'s
`accessToken` and `expiresOn` (`expiresOn?.getTime()`, `none` when the date
is `null`). -/
structure AuthResult where
  accessToken : String
  expiresOn : Option Int
  deriving DecidableEq

/-- The mutable instance fields of `MsalAuthService` (lines 21-28 of
`auth-service.ts`).  `msalInstance` records only null-ness; `timerArmed`
records whether `tokenRefreshInterval` is non-null. -/
structure ServiceState where
  msalInstance : Bool
  config : Option MsalAuthConfig
  isInitialized : Bool
  cachedToken : Option String
  tokenExpiryTime : Option Int
  isLoginInProgress : Bool
  flowType : FlowType
  timerArmed : Bool
  deriving DecidableEq

/-- The embedded world: the service state plus the pieces of the external
environment the methods touch — the provider's account list
(`msalInstance.getAllAccounts()`), the two browser storages (key lists), and
instrumentation counters for provider round-trips (used to state claims
about how many provider calls a method makes). -/
structure World where
  svc : ServiceState
  accounts : List String
  sessionKeys : List String
  localKeys : List String
  silentCalls : Nat
  interactiveCalls : Nat
  constructions : Nat
  deriving DecidableEq

/-- Errors thrown by the embedded methods; each constructor corresponds to a
`throw new Error(...)` (or a rethrown provider error) in the source. -/
inductive AuthErr where
  /-- `'MSAL not initialized. Call initialize() first.'` -/
  | notInitialized
  /-- `'NO_ACCOUNTS_FOUND'` -/
  | noAccounts
  /-- `'INTERACTION_IN_PROGRESS_RESOLVED'` -/
  | interactionInProgressResolved
  /-- `'INTERACTION_REQUIRED'` -/
  | interactionRequired
  /-- `'SILENT_REFRESH_FAILED'` -/
  | silentRefreshFailed
  /-- `'Login already in progress'` -/
  | loginAlreadyInProgress
  /-- `'Authentication window was closed or interrupted. Please try again.'` -/
  | windowClosedOrInterrupted
  /-- `'Authentication was cancelled. Please try again.'` -/
  | cancelled
  /-- `'Redirect initiated'` -/
  | redirectInitiated
  /-- a provider error rethrown unchanged, carrying its message -/
  | providerError (msg : String)
  /-- modelling artifact of the fueled embedding of the recursive
  `getAccessToken`: the recursion depth exceeded the supplied fuel. -/
  | fuelExhausted
  deriving DecidableEq

/-- Outcome of one provider `msalInstance.acquireTokenSilent(request)` call,
classified the way the source's catch-block classifies it. -/
inductive SilentOutcome where
  | success (r : AuthResult)
  /-- `BrowserAuthError` with code `interaction_in_progress` -/
  | interactionInProgress
  /-- `InteractionRequiredAuthError` -/
  | interactionRequired
  /-- any other provider failure -/
  | otherFailure
  deriving DecidableEq

/-- Outcome of one provider `msalInstance.acquireTokenPopup(request)` call. -/
inductive InteractiveOutcome where
  | success (r : AuthResult)
  /-- `BrowserAuthError` with code `interaction_in_progress` -/
  | interactionInProgress
  /-- `BrowserAuthError` with code `user_cancelled` -/
  | userCancelled
  /-- `BrowserAuthError` with code `popup_window_error` -/
  | popupWindowError
  /-- any other error, rethrown unchanged -/
  | otherError (msg : String)
  deriving DecidableEq

/-- JavaScript truthiness of `this.cachedToken : string | null`:
`null` and `''` are falsy. -/
def truthyStr : Option String → Bool
  | none => false
  | some s => s ≠ ""

/-- JavaScript truthiness of `this.tokenExpiryTime : number | null`:
`null` and `0` are falsy. -/
def truthyInt : Option Int → Bool
  | none => false
  | some n => n ≠ 0

/-- `result.expiresOn?.getTime() || Date.now()`: the JS `||` falls through to
`Date.now()` when `expiresOn` is `null` or its epoch value is `0`. -/
def jsOrNow (expiresOn : Option Int) (now : Int) : Int :=
  match expiresOn with
  | none => now
  | some t => if t = 0 then now else t

/-- `setCachedToken(result)` (auth-service.ts lines 365-370): stores the
access token and sets the local expiry five minutes (a hard-coded
`5 * 60 * 1000` ms) before the provider-reported expiry. -/
def setCachedToken (now : Int) (result : AuthResult) (s : ServiceState) : ServiceState :=
  { s with
    cachedToken := some result.accessToken
    tokenExpiryTime := some (jsOrNow result.expiresOn now - 5 * 60 * 1000) }

/-- `clearCachedToken()` (lines 375-378). -/
def clearCachedToken (s : ServiceState) : ServiceState :=
  { s with cachedToken := none, tokenExpiryTime := none }

/-- `stopTokenRefreshTimer()` (lines 422-428): clears the interval if armed. -/
def stopTokenRefreshTimer (s : ServiceState) : ServiceState :=
  { s with timerArmed := false }

/-- `startTokenRefreshTimer()` (lines 392-417): stops any existing timer and
arms a new 30-minute interval. -/
def startTokenRefreshTimer (s : ServiceState) : ServiceState :=
  { s with timerArmed := true }

/-- `handleInteractionInProgress()` (lines 355-360): clears the local lock
flag and the cached token, then sleeps 2000 ms (the sleep has no effect on
this state). -/
def handleInteractionInProgress (s : ServiceState) : ServiceState :=
  clearCachedToken { s with isLoginInProgress := false }

/-- The condition `ensureInitialized()` (lines 133-137) checks: it throws
unless `isInitialized && msalInstance && config` all hold. -/
def initCheckOk (s : ServiceState) : Bool :=
  s.isInitialized && s.msalInstance && s.config.isSome

/-- `getCurrentAccount()` (lines 150-153): the first listed account, if any
(after `ensureInitialized` has passed). -/
def getCurrentAccount (accounts : List String) : Option String :=
  accounts.head?

deriving instance DecidableEq for Except

/-- Result of one embedded `acquireTokenSilent()` call: the returned value or
thrown error, whether a provider round-trip happened, and the post-state. -/
structure SilentStep where
  result : Except AuthErr AuthResult
  providerCalled : Bool
  state : ServiceState
  deriving DecidableEq

/-- `acquireTokenSilent()` (auth-service.ts lines 166-215).  `oracle` is the
outcome the provider would give if called.  The fast path returns the cached
token when `this.cachedToken && this.tokenExpiryTime && Date.now() <
this.tokenExpiryTime` (JS truthiness); otherwise the current account is
required, and the provider call's failure is reclassified as in the source's
catch block (the `interaction_in_progress` branch runs
`handleInteractionInProgress` before throwing). -/
def acquireTokenSilent (now : Int) (accounts : List String) (oracle : SilentOutcome)
    (s : ServiceState) : SilentStep :=
  if ¬ initCheckOk s then
    ⟨.error .notInitialized, false, s⟩
  else if truthyStr s.cachedToken ∧ truthyInt s.tokenExpiryTime ∧
      now < (s.tokenExpiryTime.getD 0) then
    ⟨.ok ⟨s.cachedToken.getD "", s.tokenExpiryTime⟩, false, s⟩
  else
    match getCurrentAccount accounts with
    | none => ⟨.error .noAccounts, false, s⟩
    | some _ =>
      match oracle with
      | .success r => ⟨.ok r, true, setCachedToken now r s⟩
      | .interactionInProgress =>
        ⟨.error .interactionInProgressResolved, true, handleInteractionInProgress s⟩
      | .interactionRequired => ⟨.error .interactionRequired, true, s⟩
      | .otherFailure => ⟨.error .silentRefreshFailed, true, s⟩

/-- `acquireTokenSilent` lifted to a `World`: bumps the silent-call counter
when a provider round-trip happens. -/
def acquireTokenSilentW (now : Int) (oracle : SilentOutcome) (w : World) :
    Except AuthErr AuthResult × World :=
  let step := acquireTokenSilent now w.accounts oracle w.svc
  (step.result,
    { w with
      svc := step.state
      silentCalls := w.silentCalls + (if step.providerCalled then 1 else 0) })

/-- The body of `loginInteractive()`'s `try` block (lines 234-251) together
with its `catch` reclassification (lines 252-265): for the redirect flow the
provider call navigates away and the guard `throw new Error('Redirect
initiated')` is rethrown unchanged if control ever continues; for the popup
flow the provider popup call's outcome is handled as in the source.  The
interactive-call counter counts provider interactive round-trips. -/
def loginInteractiveBody (now : Int) (io : InteractiveOutcome) (w : World) :
    Except AuthErr AuthResult × World :=
  match w.svc.flowType with
  | .redirect =>
    (.error .redirectInitiated, { w with interactiveCalls := w.interactiveCalls + 1 })
  | .popup =>
    match io with
    | .success r =>
      (.ok r,
        { w with
          svc := startTokenRefreshTimer (setCachedToken now r w.svc)
          interactiveCalls := w.interactiveCalls + 1 })
    | .interactionInProgress =>
      (.error .windowClosedOrInterrupted,
        { w with
          svc := handleInteractionInProgress w.svc
          interactiveCalls := w.interactiveCalls + 1 })
    | .userCancelled =>
      (.error .cancelled, { w with interactiveCalls := w.interactiveCalls + 1 })
    | .popupWindowError =>
      (.error .cancelled, { w with interactiveCalls := w.interactiveCalls + 1 })
    | .otherError m =>
      (.error (.providerError m), { w with interactiveCalls := w.interactiveCalls + 1 })

/-- `loginInteractive()` (lines 220-269): `ensureInitialized`, the
synchronous lock check and lock set (no suspension point between them), then
the try/catch body, then the `finally` that clears the lock on every exit
path of the body. -/
def loginInteractive (now : Int) (io : InteractiveOutcome) (w : World) :
    Except AuthErr AuthResult × World :=
  if ¬ initCheckOk w.svc then (.error .notInitialized, w)
  else if w.svc.isLoginInProgress then (.error .loginAlreadyInProgress, w)
  else
    let w1 := { w with svc := { w.svc with isLoginInProgress := true } }
    let p := loginInteractiveBody now io w1
    (p.1, { p.2 with svc := { p.2.svc with isLoginInProgress := false } })

/-- `getAccessToken()` (lines 274-296), fueled: the source recurses on the
`'INTERACTION_IN_PROGRESS_RESOLVED'` signal with no bound, so the embedding
spends one unit of fuel per recursive call and reports `.fuelExhausted` when
the chain is longer than the supplied fuel.  `oracle n` / `io n` give the
outcome of the (n+1)-th provider silent / interactive round-trip. -/
def getAccessToken (fuel : Nat) (now : Int) (oracle : Nat → SilentOutcome)
    (io : Nat → InteractiveOutcome) (w : World) : Except AuthErr String × World :=
  match fuel with
  | 0 => (.error .fuelExhausted, w)
  | Nat.succ fuel1 =>
    let p := acquireTokenSilentW now (oracle w.silentCalls) w
    match p.1 with
    | .ok t => (.ok t.accessToken, p.2)
    | .error e =>
      if e = .noAccounts ∨ e = .interactionRequired ∨ e = .silentRefreshFailed then
        let q := loginInteractive now (io p.2.interactiveCalls) p.2
        match q.1 with
        | .ok r => (.ok r.accessToken, q.2)
        | .error e2 => (.error e2, q.2)
      else if e = .interactionInProgressResolved then
        getAccessToken fuel1 now oracle io p.2
      else
        (.error e, p.2)

/-- `logout()` (lines 301-322).  `endSessionThrows = some m` models the
provider's `logoutPopup`/`logoutRedirect` call rejecting with message `m`
(that rejection propagates out of `logout` before `clearCachedToken` and the
lock-clearing line run); `none` models it completing, in which case the
external SDK removes the signed-out account from its account list. -/
def logout (endSessionThrows : Option String) (w : World) : Except AuthErr Unit × World :=
  if ¬ initCheckOk w.svc then (.error .notInitialized, w)
  else
    let svc := stopTokenRefreshTimer w.svc
    match getCurrentAccount w.accounts with
    | some a =>
      match endSessionThrows with
      | some m => (.error (.providerError m), { w with svc := svc })
      | none =>
        let svc1 := clearCachedToken svc
        (.ok (),
          { w with
            svc := { svc1 with isLoginInProgress := false }
            accounts := w.accounts.erase a })
    | none =>
      (.ok (), { w with svc := { svc with isLoginInProgress := false } })

/-- `key.includes(sub)`: substring containment on the underlying character
lists. -/
def includesSub (k sub : String) : Bool :=
  k.data.tails.any (fun t => sub.data.isPrefixOf t)

/-- The sweep predicate of `clearAuthenticationState` (line 338):
`key.includes('msal') || key.includes('microsoft') || key.includes('login')`. -/
def sweepKey (k : String) : Bool :=
  includesSub k "msal" || includesSub k "microsoft" || includesSub k "login"

/-- `clearAuthenticationState()` (lines 327-350): stops the timer, clears the
lock flag and the cached token, removes every key matching the sweep
predicate from both storages, and resets `isInitialized`.  (The source
iterates the union of both key sets and removes each matching key from both
storages; on the key-list model this is filtering each list by the same
predicate.) -/
def clearAuthenticationState (w : World) : World :=
  let svc := stopTokenRefreshTimer w.svc
  let svc1 := clearCachedToken { svc with isLoginInProgress := false }
  { w with
    svc := { svc1 with isInitialized := false }
    sessionKeys := w.sessionKeys.filter (fun k => ¬ sweepKey k)
    localKeys := w.localKeys.filter (fun k => ¬ sweepKey k) }

/-- One firing of the renewal-timer callback (lines 400-414): the whole body
is inside try/catch; `isLoggedIn()` may itself throw (swallowed), a logged-in
firing runs `acquireTokenSilent` with all failures swallowed (their state
effects persist), and a firing that observes no account stops the timer.
An unarmed timer does not fire. -/
def timerFire (now : Int) (oracle : SilentOutcome) (w : World) : World :=
  if ¬ w.svc.timerArmed then w
  else if ¬ initCheckOk w.svc then w
  else if w.accounts.isEmpty then { w with svc := stopTokenRefreshTimer w.svc }
  else (acquireTokenSilentW now oracle w).2

/-- `AuthServiceStatus` from `core/types.ts`. -/
structure AuthServiceStatus where
  isInitialized : Bool
  hasToken : Bool
  tokenExpiry : Option Int
  isLoginInProgress : Bool
  accountCount : Nat
  flowType : FlowType
  deriving DecidableEq

/-- `getStatus()` (lines 433-442): building the snapshot evaluates
`this.getAllAccounts().length`, which calls `ensureInitialized()` and hence
throws when the service is not initialized; otherwise the snapshot is
returned (`hasToken` is `!!this.cachedToken`). -/
def getStatus (w : World) : Except AuthErr AuthServiceStatus :=
  if ¬ initCheckOk w.svc then .error .notInitialized
  else
    .ok
      { isInitialized := w.svc.isInitialized
        hasToken := truthyStr w.svc.cachedToken
        tokenExpiry := w.svc.tokenExpiryTime
        isLoginInProgress := w.svc.isLoginInProgress
        accountCount := w.accounts.length
        flowType := w.svc.flowType }

/-- Outcome of the provider work inside `initialize`'s `try` block. -/
inductive InitOutcome where
  /-- `new PublicClientApplication(...)` throws: `this.msalInstance` keeps its
  previous value. -/
  | ctorThrows (msg : String)
  /-- the constructed instance is assigned but `msalInstance.initialize()`
  (or `handleRedirectPromise`) rejects. -/
  | initThrows (msg : String)
  /-- provider construction and initialization succeed; for the redirect flow
  `handleRedirectPromise` resolves to `redirectResponse`; `probe` is the
  outcome the provider would give the stuck-interaction probe's silent call. -/
  | ok (redirectResponse : Option AuthResult) (probe : SilentOutcome)
  deriving DecidableEq

/-- `clearPendingInteractions()` (lines 108-128): clears the lock flag, then
reads the account list — a read that itself throws (swallowed by the outer
catch) when the service is not yet marked initialized — and, when accounts
exist, makes one silent acquisition attempt whose failure is swallowed but
whose state effects persist. -/
def clearPendingInteractions (now : Int) (probe : SilentOutcome) (w : World) : World :=
  let w1 := { w with svc := { w.svc with isLoginInProgress := false } }
  if ¬ initCheckOk w1.svc then w1
  else if w1.accounts.isEmpty then w1
  else (acquireTokenSilentW now probe w1).2

/-- The already-initialized guard of `initialize` (line 34):
`this.isInitialized && this.config?.clientId === config.clientId` (the
optional chaining makes the comparison false when no config is stored). -/
def sameClientGuard (s : ServiceState) (cfg : MsalAuthConfig) : Bool :=
  s.isInitialized &&
    (match s.config with
     | some c => c.clientId == cfg.clientId
     | none => false)

/-- Lines 80-87 of `initialize`: for the redirect flow, a pending redirect
response (if the provider reports one) seeds the cache via `setCachedToken`. -/
def seedRedirectCache (now : Int) (redirectResponse : Option AuthResult) (w : World) :
    World :=
  if w.svc.flowType = .redirect then
    match redirectResponse with
    | some r => { w with svc := setCachedToken now r w.svc }
    | none => w
  else w

/-- Lines 93-95 of `initialize`: start the renewal timer when `isLoggedIn()`. -/
def maybeStartTimer (w : World) : World :=
  if ¬ w.accounts.isEmpty then { w with svc := startTokenRefreshTimer w.svc }
  else w

/-- The successful tail of `initialize`'s `try` block (lines 76-97), after
provider construction and initialization succeed: assign the instance, seed
the cache from a pending redirect response, run `clearPendingInteractions`,
set `isInitialized`, and start the renewal timer when an account is
present. -/
def initServiceOkBody (now : Int) (redirectResponse : Option AuthResult)
    (probe : SilentOutcome) (w : World) : World :=
  let w2 := { w with svc := { w.svc with msalInstance := true } }
  let w3 := seedRedirectCache now redirectResponse w2
  let w4 := clearPendingInteractions now probe w3
  let w5 := { w4 with svc := { w4.svc with isInitialized := true } }
  maybeStartTimer w5

/-- `initialize(config)` (auth-service.ts lines 33-103), named `initService`
here.  The `sameClientGuard` returns without touching the provider;
otherwise `config`/`flowType` are stored, provider construction is attempted
(counted by `constructions`), and the body proceeds per the outcome.  On any
throw the catch still sets `isInitialized := true` before rethrowing
(`ctorThrows` leaves `msalInstance` at its previous value because the
assignment never happened). -/
def initService (now : Int) (outcome : InitOutcome) (cfg : MsalAuthConfig) (w : World) :
    Except AuthErr Unit × World :=
  if sameClientGuard w.svc cfg then
    (.ok (), w)
  else
    let svc := { w.svc with config := some cfg, flowType := cfg.flowType.getD .popup }
    let w1 := { w with svc := svc, constructions := w.constructions + 1 }
    match outcome with
    | .ctorThrows m =>
      (.error (.providerError m), { w1 with svc := { w1.svc with isInitialized := true } })
    | .initThrows m =>
      (.error (.providerError m),
        { w1 with svc := { w1.svc with msalInstance := true, isInitialized := true } })
    | .ok redirectResponse probe =>
      (.ok (), initServiceOkBody now redirectResponse probe w1)

/-- The React hook's `AuthenticationState` fields that the initialization
effect of `use-authentication.ts` updates. -/
structure HookState where
  isInitializing : Bool
  isAuthenticated : Bool
  needsLogin : Bool
  authError : Option String
  jwtToken : Option String
  deriving DecidableEq

/-- Outcome of the awaited work inside the hook's `initialize` effect. -/
inductive HookInitOutcome where
  /-- `authService.initialize(config)` rejected; `some m` when the thrown
  value is an `Error` with message `m`, `none` for a non-`Error` throw. -/
  | initFails (msg : Option String)
  /-- initialization succeeded and `isLoggedIn()` is false. -/
  | notLoggedIn
  /-- initialization succeeded, logged in, `getAccessToken()` resolved. -/
  | tokenOk (token : String)
  /-- initialization succeeded, logged in, `getAccessToken()` rejected
  (caught by the inner catch). -/
  | tokenFails
  /-- token acquired but the `onAuthSuccess` callback threw, reaching the
  outer catch after the authenticated update was applied. -/
  | callbackFails (token : String) (msg : Option String)
  deriving DecidableEq

/-- `error instanceof Error ? error.message : 'Initialization failed'`. -/
def hookErrMsg (m : Option String) : String :=
  m.getD "Initialization failed"

/-- The `initialize` async effect of `useAuthentication`
(`use-authentication.ts` lines 154-212 of the React sources): sets the
initializing flags, awaits the service work, and on any throw the outer
catch records the error message, sets `needsLogin`, and clears
`isInitializing`. -/
def hookInitEffect (outcome : HookInitOutcome) (h : HookState) : HookState :=
  let h1 := { h with isInitializing := true, authError := none, needsLogin := false }
  match outcome with
  | .initFails m =>
    { h1 with
      authError := some (hookErrMsg m)
      needsLogin := true
      isInitializing := false }
  | .notLoggedIn => { h1 with needsLogin := true, isInitializing := false }
  | .tokenOk t =>
    { h1 with jwtToken := some t, isAuthenticated := true, isInitializing := false }
  | .tokenFails => { h1 with needsLogin := true, isInitializing := false }
  | .callbackFails t m =>
    { h1 with
      jwtToken := some t
      isAuthenticated := true
      authError := some (hookErrMsg m)
      needsLogin := true
      isInitializing := false }

/-! ### Concrete fixtures used by counterexamples and witnesses -/

/-- A configuration with a non-default renewal lead of 600 seconds. -/
def cfg600 : MsalAuthConfig :=
  { clientId := "client-a", scopes := ["scope-a"], flowType := some .popup
    tokenRenewalOffsetSeconds := some 600 }

/-- A configuration with default (absent) optional fields. -/
def cfgD : MsalAuthConfig :=
  { clientId := "client-a", scopes := ["scope-a"], flowType := some .popup
    tokenRenewalOffsetSeconds := none }

/-- An initialized service configured with `cfg600`, empty cache, popup flow. -/
def svc600 : ServiceState :=
  { msalInstance := true, config := some cfg600, isInitialized := true
    cachedToken := none, tokenExpiryTime := none, isLoginInProgress := false
    flowType := .popup, timerArmed := false }

/-- An initialized service configured with `cfgD`, empty cache, popup flow. -/
def svcD : ServiceState :=
  { msalInstance := true, config := some cfgD, isInitialized := true
    cachedToken := none, tokenExpiryTime := none, isLoginInProgress := false
    flowType := .popup, timerArmed := false }

/-- The field values a fresh `MsalAuthService` instance starts with
(auth-service.ts lines 21-28). -/
def freshService : ServiceState :=
  { msalInstance := false, config := none, isInitialized := false
    cachedToken := none, tokenExpiryTime := none, isLoginInProgress := false
    flowType := .popup, timerArmed := false }

/-- A world holding a fresh, never-initialized service. -/
def freshWorld : World :=
  { svc := freshService, accounts := [], sessionKeys := [], localKeys := []
    silentCalls := 0, interactiveCalls := 0, constructions := 0 }

/-! ### Helper lemmas -/

/-- `setCachedToken` does not touch the fields `ensureInitialized` checks. -/
theorem initCheckOk_setCachedToken (now : Int) (r : AuthResult) (s : ServiceState) :
    initCheckOk (setCachedToken now r s) = initCheckOk s := rfl

/-- Filtering a list twice by the same predicate equals filtering once. -/
theorem filter_same_twice {α : Type} (p : α → Bool) (l : List α) :
    (l.filter p).filter p = l.filter p := by
  induction l with
  | nil => rfl
  | cons a t ih =>
    by_cases h : p a = true
    · simp [List.filter, h, ih]
    · simp [List.filter, h, ih]

/-- With no account and no (truthy) cached token, `acquireTokenSilent` on an
initialized service fails with the no-accounts error and touches nothing. -/
theorem acquireTokenSilent_noAccounts (now : Int) (o : SilentOutcome) (s : ServiceState)
    (hinit : initCheckOk s = true) (hcache : truthyStr s.cachedToken = false) :
    acquireTokenSilent now [] o s = ⟨.error .noAccounts, false, s⟩ := by
  unfold acquireTokenSilent
  rw [if_neg (by simp [hinit]), if_neg (by simp [hcache])]
  rfl

/-- No branch of `acquireTokenSilent` touches the renewal timer. -/
theorem acquireTokenSilent_timerArmed (now : Int) (accounts : List String)
    (o : SilentOutcome) (s : ServiceState) :
    (acquireTokenSilent now accounts o s).state.timerArmed = s.timerArmed := by
  unfold acquireTokenSilent
  split
  · rfl
  split
  · rfl
  split
  · rfl
  · cases o <;> rfl

/-- World version of `acquireTokenSilent_timerArmed`. -/
theorem acquireTokenSilentW_timerArmed (now : Int) (o : SilentOutcome) (w : World) :
    ((acquireTokenSilentW now o w).2).svc.timerArmed = w.svc.timerArmed := by
  simp [acquireTokenSilentW, acquireTokenSilent_timerArmed]

/-! ### Claim theorems -/

/-- C1 counterexample: with `tokenRenewalOffsetSeconds` configured to 600
seconds and a provider-reported expiry of 1 000 000 000 ms, the locally
stored expiry is 999 700 000 ms (expiry minus a hard-coded 300 s), not
expiry minus the configured 600 s lead, so the claim's "locally stored
expiry equals E minus L" fails for the configured lead L = 600. -/
theorem C1_counterexample :
    (setCachedToken 0 { accessToken := "tok", expiresOn := some 1000000000 }
        svc600).tokenExpiryTime = some 999700000 ∧
      (999700000 : Int) ≠ 1000000000 - 600 * 1000 := by
  constructor
  · rfl
  · decide

/-- C1 (amended): the locally stored expiry equals the provider-reported
expiry minus a fixed 300-second (5-minute) lead, regardless of the
configured `tokenRenewalOffsetSeconds`; `acquireTokenSilent` returns the
cached value with no provider call exactly when `now` is before that stored
instant, and otherwise makes a provider call or fails. -/
theorem C1_corrected (s : ServiceState) (r : AuthResult) (E tcache now : Int)
    (accounts : List String) (o : SilentOutcome)
    (hE : r.expiresOn = some E) (hEpos : 300000 < E) (htok : r.accessToken ≠ "")
    (hinit : initCheckOk s = true) :
    (setCachedToken tcache r s).tokenExpiryTime = some (E - 300000) ∧
      (now < E - 300000 →
        acquireTokenSilent now accounts o (setCachedToken tcache r s) =
          ⟨.ok ⟨r.accessToken, some (E - 300000)⟩, false, setCachedToken tcache r s⟩) ∧
      (E - 300000 ≤ now →
        (acquireTokenSilent now accounts o (setCachedToken tcache r s)).providerCalled = true ∨
          ∃ e, (acquireTokenSilent now accounts o (setCachedToken tcache r s)).result =
            .error e) := by
  have hE0 : E ≠ 0 := by omega
  have hexp : (setCachedToken tcache r s).tokenExpiryTime = some (E - 300000) := by
    simp [setCachedToken, jsOrNow, hE, hE0]
  refine ⟨hexp, ?_, ?_⟩
  · intro hnow
    have hcond : truthyStr (setCachedToken tcache r s).cachedToken ∧
        truthyInt (setCachedToken tcache r s).tokenExpiryTime ∧
        now < ((setCachedToken tcache r s).tokenExpiryTime.getD 0) := by
      refine ⟨?_, ?_, ?_⟩
      · simp [setCachedToken, truthyStr, htok]
      · rw [hexp]; simp [truthyInt]; omega
      · rw [hexp]; simpa using hnow
    simp only [acquireTokenSilent, initCheckOk_setCachedToken, hinit]
    rw [if_neg (by simp), if_pos hcond]
    have htokval : (setCachedToken tcache r s).cachedToken.getD "" = r.accessToken := by
      simp [setCachedToken]
    rw [htokval, hexp]
  · intro hnow
    have hcond : ¬ (truthyStr (setCachedToken tcache r s).cachedToken ∧
        truthyInt (setCachedToken tcache r s).tokenExpiryTime ∧
        now < ((setCachedToken tcache r s).tokenExpiryTime.getD 0)) := by
      rw [hexp]
      rintro ⟨-, -, hlt⟩
      simp at hlt
      omega
    simp only [acquireTokenSilent, initCheckOk_setCachedToken, hinit]
    rw [if_neg (by simp), if_neg hcond]
    cases haccs : getCurrentAccount accounts with
    | none => right; exact ⟨.noAccounts, rfl⟩
    | some a =>
      cases o with
      | success r2 => left; rfl
      | interactionInProgress => left; rfl
      | interactionRequired => left; rfl
      | otherFailure => left; rfl

/-- C1 witness: the amended theorem applied at a concrete cached token with
expiry 1 000 000 000 ms in state `svc600`. -/
theorem C1_corrected_witness :
    (setCachedToken 0 { accessToken := "tok", expiresOn := some 1000000000 }
        svc600).tokenExpiryTime = some (1000000000 - 300000) ∧
      ((500 : Int) < 1000000000 - 300000 →
        acquireTokenSilent 500 ["alice"] .otherFailure
            (setCachedToken 0 { accessToken := "tok", expiresOn := some 1000000000 } svc600) =
          ⟨.ok ⟨"tok", some (1000000000 - 300000)⟩, false,
            setCachedToken 0 { accessToken := "tok", expiresOn := some 1000000000 } svc600⟩) ∧
      ((1000000000 - 300000 : Int) ≤ 500 →
        (acquireTokenSilent 500 ["alice"] .otherFailure
            (setCachedToken 0 { accessToken := "tok", expiresOn := some 1000000000 }
              svc600)).providerCalled = true ∨
          ∃ e, (acquireTokenSilent 500 ["alice"] .otherFailure
              (setCachedToken 0 { accessToken := "tok", expiresOn := some 1000000000 }
                svc600)).result = .error e) :=
  C1_corrected svc600 { accessToken := "tok", expiresOn := some 1000000000 }
    1000000000 0 500 ["alice"] .otherFailure rfl (by decide) (by decide) (by decide)

/-- C6: every failure thrown during the hook's initialization effect (an
`Error` with message `m`, as thrown by provider construction or provider
initialization) resolves the externally observable state to needs-login with
the error surfaced: `isInitializing = false`, `needsLogin = true`,
`authError = m`, never hanging in the initializing state. -/
theorem C6_confirmed (h : HookState) (m : String) :
    (hookInitEffect (.initFails (some m)) h).isInitializing = false ∧
      (hookInitEffect (.initFails (some m)) h).needsLogin = true ∧
      (hookInitEffect (.initFails (some m)) h).authError = some m := by
  simp [hookInitEffect, hookErrMsg]

/-- C8: `clearAuthenticationState()` is idempotent — running it twice from
any starting world yields exactly the world produced by running it once
(timer stopped, lock cleared, cache cleared, storage swept, initialized flag
reset). -/
theorem C8_confirmed (w : World) :
    clearAuthenticationState (clearAuthenticationState w) = clearAuthenticationState w := by
  cases w with
  | mk svc accounts sessionKeys localKeys sc ic cs =>
    simp [clearAuthenticationState, stopTokenRefreshTimer, clearCachedToken,
      filter_same_twice]

/-- C9: the debug snapshot is not readable before initialization — on any
world whose service has `isInitialized = false` (a freshly constructed
instance, or one reset by `clearAuthenticationState`), `getStatus()` throws
the not-initialized error instead of returning a snapshot, because it
computes `accountCount` via `getAllAccounts()`, which requires
initialization. -/
theorem C9_confirmed (w v : World) (h : w.svc.isInitialized = false)
    (hfresh : v.svc = freshService) :
    getStatus w = .error .notInitialized ∧
      getStatus (clearAuthenticationState v) = .error .notInitialized ∧
      getStatus v = .error .notInitialized := by
  refine ⟨?_, ?_, ?_⟩
  · simp [getStatus, initCheckOk, h]
  · simp [getStatus, clearAuthenticationState, initCheckOk]
  · simp [getStatus, initCheckOk, hfresh, freshService]

/-- C9 witness: `getStatus` at a concrete uninitialized world. -/
theorem C9_confirmed_witness :
    getStatus freshWorld = .error .notInitialized ∧
      getStatus (clearAuthenticationState freshWorld) = .error .notInitialized ∧
      getStatus freshWorld = .error .notInitialized := by
  have h := C9_confirmed freshWorld freshWorld (by decide) (by decide)
  exact ⟨h.1, h.2.1, h.1⟩

/-- A world with one account, a valid cached token, a held lock, and an
armed timer — the state in which `logout` is called in the C5
counterexample. -/
def w5 : World :=
  { svc :=
      { msalInstance := true, config := some cfgD, isInitialized := true
        cachedToken := some "tok", tokenExpiryTime := some 1000
        isLoginInProgress := true, flowType := .popup, timerArmed := true }
    accounts := ["alice"], sessionKeys := [], localKeys := []
    silentCalls := 0, interactiveCalls := 0, constructions := 0 }

/-- C5 counterexample: when the provider's end-session call throws, `logout`
propagates the rejection before reaching `clearCachedToken()` and the
lock-clearing line, so afterwards the cached token is still present, the
interaction lock flag is still set, and a subsequent `acquireTokenSilent`
returns the stale cached value instead of failing with `NoAccount` —
refuting the claim's "regardless of whether the provider's end-session call
succeeds or throws". -/
theorem C5_counterexample :
    (logout (some "endfail") w5).1 = .error (.providerError "endfail") ∧
      ((logout (some "endfail") w5).2).svc.cachedToken = some "tok" ∧
      ((logout (some "endfail") w5).2).svc.isLoginInProgress = true ∧
      (acquireTokenSilent 0 ((logout (some "endfail") w5).2).accounts .otherFailure
          ((logout (some "endfail") w5).2).svc).result =
        .ok { accessToken := "tok", expiresOn := some 1000 } := by
  decide

/-- C5 (amended): PROVIDED the provider's end-session call does not throw,
`logout()` stops the renewal timer (which then issues no further provider
calls), clears the interaction lock flag, and — when an account was present
(single-account session) — clears the cached token so that a subsequent
`acquireSilent()` fails with `NoAccount`; with no account it is an
idempotent timer-stop plus lock-clear.  When the end-session call throws,
only the timer stop has already happened: the cached token and the lock flag
retain their prior values. -/
theorem C5_corrected (w : World) (a m : String) (hinit : initCheckOk w.svc = true) :
    (w.accounts = [a] →
      (logout none w).1 = .ok () ∧
        ((logout none w).2).svc.timerArmed = false ∧
        ((logout none w).2).svc.cachedToken = none ∧
        ((logout none w).2).svc.tokenExpiryTime = none ∧
        ((logout none w).2).svc.isLoginInProgress = false ∧
        ((logout none w).2).accounts = [] ∧
        (∀ now o, (acquireTokenSilent now ((logout none w).2).accounts o
            ((logout none w).2).svc).result = .error .noAccounts) ∧
        (∀ now o, timerFire now o ((logout none w).2) = (logout none w).2)) ∧
      (w.accounts = [] →
        (logout none w).1 = .ok () ∧
          ((logout none w).2).svc.timerArmed = false ∧
          ((logout none w).2).svc.isLoginInProgress = false) ∧
      (w.accounts ≠ [] →
        (logout (some m) w).1 = .error (.providerError m) ∧
          ((logout (some m) w).2).svc.timerArmed = false ∧
          ((logout (some m) w).2).svc.cachedToken = w.svc.cachedToken ∧
          ((logout (some m) w).2).svc.isLoginInProgress = w.svc.isLoginInProgress) := by
  refine ⟨?_, ?_, ?_⟩
  · intro hacc
    have hcur : getCurrentAccount w.accounts = some a := by
      simp [getCurrentAccount, hacc]
    have herase : w.accounts.erase a = [] := by simp [hacc]
    have hl : logout none w =
        (.ok (),
          { w with
            svc :=
              { w.svc with
                timerArmed := false, cachedToken := none
                tokenExpiryTime := none, isLoginInProgress := false }
            accounts := [] }) := by
      simp [logout, hinit, hcur, herase, stopTokenRefreshTimer, clearCachedToken]
    rw [hl]
    have hinit2 : initCheckOk
        { w.svc with
          timerArmed := false, cachedToken := none
          tokenExpiryTime := none, isLoginInProgress := false } = true := hinit
    refine ⟨rfl, rfl, rfl, rfl, rfl, rfl, ?_, ?_⟩
    · intro now o
      rw [acquireTokenSilent_noAccounts now o _ hinit2 rfl]
    · intro now o
      simp [timerFire]
  · intro hacc
    have hcur : getCurrentAccount w.accounts = none := by
      simp [getCurrentAccount, hacc]
    simp [logout, hinit, hcur, stopTokenRefreshTimer]
  · intro hacc
    obtain ⟨a0, rest, hcons⟩ : ∃ a0 rest, w.accounts = a0 :: rest := by
      cases hw : w.accounts with
      | nil => exact absurd hw hacc
      | cons a0 rest => exact ⟨a0, rest, rfl⟩
    simp only [logout, hinit, hcons]
    simp [getCurrentAccount, stopTokenRefreshTimer]

/-- C5 witness: the amended theorem applied at the concrete world `w5`
(its hypothesis discharged by evaluation) — the success branch instantiated
for the single account `"alice"`. -/
theorem C5_corrected_witness :
    (logout none w5).1 = .ok () ∧
      ((logout none w5).2).svc.timerArmed = false ∧
      ((logout none w5).2).svc.cachedToken = none ∧
      ((logout none w5).2).svc.tokenExpiryTime = none ∧
      ((logout none w5).2).svc.isLoginInProgress = false ∧
      ((logout none w5).2).accounts = [] ∧
      (∀ now o, (acquireTokenSilent now ((logout none w5).2).accounts o
          ((logout none w5).2).svc).result = .error .noAccounts) ∧
      (∀ now o, timerFire now o ((logout none w5).2) = (logout none w5).2) :=
  (C5_corrected w5 "alice" "unused" (by decide)).1 (by decide)

/-- C7: a renewal-timer firing in which the background silent acquisition
fails (any oracle outcome) leaves the timer armed whenever an account is
present; the firing disarms the timer exactly when it observes no account
(on an initialized service); and only `logout` / `clearAuthenticationState`
otherwise stop it. -/
theorem C7_confirmed (now : Int) (o : SilentOutcome) (w : World)
    (harmed : w.svc.timerArmed = true) :
    (w.accounts ≠ [] → (timerFire now o w).svc.timerArmed = true) ∧
      ((timerFire now o w).svc.timerArmed = false →
        initCheckOk w.svc = true ∧ w.accounts = []) ∧
      (initCheckOk w.svc = true → w.accounts = [] →
        (timerFire now o w).svc.timerArmed = false) ∧
      (clearAuthenticationState w).svc.timerArmed = false ∧
      (∀ es, initCheckOk w.svc = true → ((logout es w).2).svc.timerArmed = false) := by
  refine ⟨?_, ?_, ?_, ?_, ?_⟩
  · intro hacc
    by_cases hi : initCheckOk w.svc = true
    · have hne : w.accounts.isEmpty = false := by
        cases hw : w.accounts with
        | nil => exact absurd hw hacc
        | cons x t => simp [hw]
      simp [timerFire, harmed, hi, hne, acquireTokenSilentW_timerArmed]
    · simp [timerFire, harmed, hi]
  · intro hstop
    by_cases hi : initCheckOk w.svc = true
    · refine ⟨hi, ?_⟩
      by_cases he : w.accounts.isEmpty = true
      · exact List.isEmpty_iff.mp he
      · exfalso
        rw [timerFire] at hstop
        rw [if_neg (by simp [harmed]), if_neg (by simp [hi]), if_neg (by simp [he])]
          at hstop
        rw [acquireTokenSilentW_timerArmed, harmed] at hstop
        exact Bool.true_eq_false.mp hstop
    · simp [timerFire, harmed, hi] at hstop
  · intro hi hacc
    simp [timerFire, harmed, hi, hacc, stopTokenRefreshTimer]
  · simp [clearAuthenticationState, stopTokenRefreshTimer, clearCachedToken]
  · intro es hi
    simp only [logout, hi]
    simp only [not_true, ite_false]
    cases hw : getCurrentAccount w.accounts with
    | none => simp [stopTokenRefreshTimer]
    | some a =>
      cases es with
      | none => simp [stopTokenRefreshTimer, clearCachedToken]
      | some m => simp [stopTokenRefreshTimer]

/-- C7 witness: a firing of the armed timer on `w5` whose silent acquisition
fails leaves the timer armed. -/
theorem C7_confirmed_witness :
    (w5.accounts ≠ [] → (timerFire 0 .otherFailure w5).svc.timerArmed = true) ∧
      ((timerFire 0 .otherFailure w5).svc.timerArmed = false →
        initCheckOk w5.svc = true ∧ w5.accounts = []) ∧
      (initCheckOk w5.svc = true → w5.accounts = [] →
        (timerFire 0 .otherFailure w5).svc.timerArmed = false) ∧
      (clearAuthenticationState w5).svc.timerArmed = false ∧
      (∀ es, initCheckOk w5.svc = true → ((logout es w5).2).svc.timerArmed = false) :=
  C7_confirmed 0 .otherFailure w5 (by decide)

/-- C3: on an initialized session with no cached token and no account,
`getAccessToken()` performs exactly one interactive login attempt — the
provider interactive-call counter rises by exactly one, whatever the
attempt's outcome — and when that attempt succeeds its access token is
returned. -/
theorem C3_confirmed (fuel : Nat) (now : Int) (oracle : Nat → SilentOutcome)
    (io : Nat → InteractiveOutcome) (w : World)
    (hinit : initCheckOk w.svc = true)
    (hacc : w.accounts = [])
    (hcache : w.svc.cachedToken = none)
    (hlock : w.svc.isLoginInProgress = false)
    (hflow : w.svc.flowType = .popup) :
    ((getAccessToken (fuel + 1) now oracle io w).2).interactiveCalls =
        w.interactiveCalls + 1 ∧
      (∀ r, io w.interactiveCalls = .success r →
        (getAccessToken (fuel + 1) now oracle io w).1 = .ok r.accessToken) := by
  obtain ⟨svc, accounts, sk, lk, sc, ic, cs⟩ := w
  obtain ⟨mi, cfg, ii, ct, te, lip, ft, ta⟩ := svc
  simp only [initCheckOk, Bool.and_eq_true] at hinit
  obtain ⟨⟨hii, hmi⟩, hcfg⟩ := hinit
  dsimp only at hacc hcache hlock hflow
  subst hacc hcache hlock hflow hii hmi
  constructor
  · cases hioc : io ic with
    | success r =>
      simp [getAccessToken, acquireTokenSilentW, acquireTokenSilent, initCheckOk,
        truthyStr, getCurrentAccount, loginInteractive, loginInteractiveBody, hioc, hcfg]
    | interactionInProgress =>
      simp [getAccessToken, acquireTokenSilentW, acquireTokenSilent, initCheckOk,
        truthyStr, getCurrentAccount, loginInteractive, loginInteractiveBody, hioc, hcfg]
    | userCancelled =>
      simp [getAccessToken, acquireTokenSilentW, acquireTokenSilent, initCheckOk,
        truthyStr, getCurrentAccount, loginInteractive, loginInteractiveBody, hioc, hcfg]
    | popupWindowError =>
      simp [getAccessToken, acquireTokenSilentW, acquireTokenSilent, initCheckOk,
        truthyStr, getCurrentAccount, loginInteractive, loginInteractiveBody, hioc, hcfg]
    | otherError m =>
      simp [getAccessToken, acquireTokenSilentW, acquireTokenSilent, initCheckOk,
        truthyStr, getCurrentAccount, loginInteractive, loginInteractiveBody, hioc, hcfg]
  · intro r hio
    simp [getAccessToken, acquireTokenSilentW, acquireTokenSilent, initCheckOk,
      truthyStr, getCurrentAccount, loginInteractive, loginInteractiveBody, hio, hcfg]

/-- C3 witness: a concrete initialized, account-less world in which a
successful popup attempt's token `"fresh"` is returned and the interactive
counter rises from 0 to 1. -/
theorem C3_confirmed_witness :
    ((getAccessToken 1 0 (fun _ => .otherFailure)
          (fun _ => .success { accessToken := "fresh", expiresOn := some 7000000 })
          { svc := svcD, accounts := [], sessionKeys := [], localKeys := []
            silentCalls := 0, interactiveCalls := 0, constructions := 0 }).2).interactiveCalls =
        0 + 1 ∧
      (∀ r, (fun (_ : Nat) => InteractiveOutcome.success
            { accessToken := "fresh", expiresOn := some 7000000 }) 0 = .success r →
        (getAccessToken 1 0 (fun _ => .otherFailure)
            (fun _ => .success { accessToken := "fresh", expiresOn := some 7000000 })
            { svc := svcD, accounts := [], sessionKeys := [], localKeys := []
              silentCalls := 0, interactiveCalls := 0, constructions := 0 }).1 =
          .ok r.accessToken) :=
  C3_confirmed 0 0 (fun _ => .otherFailure)
    (fun _ => .success { accessToken := "fresh", expiresOn := some 7000000 })
    { svc := svcD, accounts := [], sessionKeys := [], localKeys := []
      silentCalls := 0, interactiveCalls := 0, constructions := 0 }
    (by decide) rfl rfl rfl rfl

/-- `acquireTokenSilentW` never touches the construction counter. -/
theorem acquireTokenSilentW_constructions (now : Int) (o : SilentOutcome) (w : World) :
    ((acquireTokenSilentW now o w).2).constructions = w.constructions := by
  simp [acquireTokenSilentW]

/-- `clearPendingInteractions` never touches the construction counter. -/
theorem clearPendingInteractions_constructions (now : Int) (probe : SilentOutcome)
    (w : World) :
    (clearPendingInteractions now probe w).constructions = w.constructions := by
  rw [clearPendingInteractions]
  split
  · rfl
  split
  · rfl
  · rw [acquireTokenSilentW_constructions]

/-- `seedRedirectCache` never touches the construction counter. -/
theorem seedRedirectCache_constructions (now : Int) (rr : Option AuthResult) (w : World) :
    (seedRedirectCache now rr w).constructions = w.constructions := by
  rw [seedRedirectCache.eq_def]
  split
  · split <;> rfl
  · rfl

/-- `maybeStartTimer` never touches the construction counter. -/
theorem maybeStartTimer_constructions (w : World) :
    (maybeStartTimer w).constructions = w.constructions := by
  rw [maybeStartTimer]
  split <;> rfl

/-- The successful init tail never touches the construction counter. -/
theorem initServiceOkBody_constructions (now : Int) (rr : Option AuthResult)
    (probe : SilentOutcome) (w : World) :
    (initServiceOkBody now rr probe w).constructions = w.constructions := by
  simp only [initServiceOkBody]
  rw [maybeStartTimer_constructions]
  show (clearPendingInteractions now probe _).constructions = w.constructions
  rw [clearPendingInteractions_constructions, seedRedirectCache_constructions]

/-- Whenever the already-initialized guard is false, `initService` attempts
provider construction exactly once. -/
theorem initService_constructions (now : Int) (o : InitOutcome) (cfg : MsalAuthConfig)
    (w : World) (hguard : sameClientGuard w.svc cfg = false) :
    ((initService now o cfg w).2).constructions = w.constructions + 1 := by
  rw [initService, if_neg (by simp [hguard])]
  cases o with
  | ctorThrows m => rfl
  | initThrows m => rfl
  | ok rr probe =>
    simp only []
    rw [initServiceOkBody_constructions]

/-- An `initService` call that throws took the non-guarded path: the guard
was false, the catch set `isInitialized`, the config was stored before the
try block, and construction was attempted once. -/
theorem initService_error_shape (now : Int) (o : InitOutcome) (cfg : MsalAuthConfig)
    (w : World) (e : AuthErr) (h : (initService now o cfg w).1 = .error e) :
    sameClientGuard w.svc cfg = false ∧
      ((initService now o cfg w).2).svc.isInitialized = true ∧
      ((initService now o cfg w).2).svc.config = some cfg ∧
      ((initService now o cfg w).2).constructions = w.constructions + 1 := by
  by_cases hg : sameClientGuard w.svc cfg = true
  · rw [initService, if_pos hg] at h
    exact absurd h (by simp)
  · have hg2 : sameClientGuard w.svc cfg = false := by
      cases hb : sameClientGuard w.svc cfg with
      | false => rfl
      | true => exact absurd hb hg
    refine ⟨hg2, ?_⟩
    rw [initService, if_neg (by simp [hg2])] at h ⊢
    cases o with
    | ctorThrows m => exact ⟨rfl, rfl, rfl⟩
    | initThrows m => exact ⟨rfl, rfl, rfl⟩
    | ok rr probe => exact absurd h (by simp)

/-- C10: a failed `initialize(config)` still marks the service initialized
and stores the config's clientId, so a subsequent `initialize` with the same
clientId returns immediately as a no-op (state unchanged, provider
construction not retried); `clearAuthenticationState()` resets the
initialized flag, after which a new `initialize` attempt reaches provider
construction again. -/
theorem C10_confirmed (now1 now2 : Int) (o1 o2 : InitOutcome) (cfg cfg2 : MsalAuthConfig)
    (w : World) (e : AuthErr)
    (h1 : (initService now1 o1 cfg w).1 = .error e)
    (hsame : cfg2.clientId = cfg.clientId) :
    initService now2 o2 cfg2 ((initService now1 o1 cfg w).2) =
        (.ok (), (initService now1 o1 cfg w).2) ∧
      ((initService now1 o1 cfg w).2).svc.isInitialized = true ∧
      ((initService now1 o1 cfg w).2).constructions = w.constructions + 1 ∧
      (clearAuthenticationState ((initService now1 o1 cfg w).2)).svc.isInitialized =
        false ∧
      (∀ now3 o3 cfg3,
        ((initService now3 o3 cfg3
            (clearAuthenticationState ((initService now1 o1 cfg w).2))).2).constructions =
          w.constructions + 2) := by
  obtain ⟨hg, hii, hcfg, hcons⟩ := initService_error_shape now1 o1 cfg w e h1
  refine ⟨?_, hii, hcons, rfl, ?_⟩
  · have hguard2 : sameClientGuard ((initService now1 o1 cfg w).2).svc cfg2 = true := by
      simp [sameClientGuard, hii, hcfg, hsame]
    rw [initService, if_pos hguard2]
  · intro now3 o3 cfg3
    have hguard3 : sameClientGuard
        (clearAuthenticationState ((initService now1 o1 cfg w).2)).svc cfg3 = false := by
      simp [sameClientGuard, clearAuthenticationState]
    rw [initService_constructions now3 o3 cfg3 _ hguard3]
    have hcc : (clearAuthenticationState ((initService now1 o1 cfg w).2)).constructions =
        ((initService now1 o1 cfg w).2).constructions := rfl
    rw [hcc, hcons]

/-- C10 witness: a concrete failed first initialization (provider
construction throws on the fresh world), followed by a same-clientId no-op
retry and a post-clear retry that constructs again. -/
theorem C10_confirmed_witness :
    initService 1 (.ok none .otherFailure) cfgD
          ((initService 0 (.ctorThrows "boom") cfgD freshWorld).2) =
        (.ok (), (initService 0 (.ctorThrows "boom") cfgD freshWorld).2) ∧
      ((initService 0 (.ctorThrows "boom") cfgD freshWorld).2).svc.isInitialized = true ∧
      ((initService 0 (.ctorThrows "boom") cfgD freshWorld).2).constructions =
        freshWorld.constructions + 1 ∧
      (clearAuthenticationState
          ((initService 0 (.ctorThrows "boom") cfgD freshWorld).2)).svc.isInitialized =
        false ∧
      (∀ now3 o3 cfg3,
        ((initService now3 o3 cfg3
            (clearAuthenticationState
              ((initService 0 (.ctorThrows "boom") cfgD freshWorld).2))).2).constructions =
          freshWorld.constructions + 2) :=
  C10_confirmed 0 1 (.ctorThrows "boom") (.ok none .otherFailure) cfgD cfgD freshWorld
    (.providerError "boom") (by decide) rfl

/-! ### Interleaving model for concurrent `loginInteractive()` calls (C2)

The host is a single-threaded event loop (spec §5): the synchronous prefix
of `loginInteractive` — `ensureInitialized()`, the `isLoginInProgress`
check, and the `isLoginInProgress = true` assignment (lines 221-227) —
contains no `await`, so it executes atomically; the window from the first
suspension point to the `finally` (line 267) is the in-flight window, and
the `finally` releases the lock on every exit path.  Each caller is one slot
of a status list; steps interleave arbitrarily. -/

/-- Status of one `loginInteractive()` caller. -/
inductive CallStatus where
  | notStarted
  /-- past the atomic lock check-and-set, before its `finally` ran -/
  | inFlight
  /-- failed fast with the login-already-in-progress error -/
  | rejected
  /-- body finished (success, failure, or thrown) and the `finally` ran -/
  | completed
  deriving DecidableEq

/-- The process-wide lock flag plus the status of every caller. -/
structure LockWorld where
  lock : Bool
  calls : List CallStatus
  deriving DecidableEq

/-- One atomic step of the interleaving: a caller runs its synchronous
prefix against a held lock (immediate rejection), runs it against a free
lock (check and set with no suspension point in between), or its in-flight
body completes and the `finally` clears the lock. -/
inductive LockStep : LockWorld → LockWorld → Prop where
  | reject (w : LockWorld) (i : Nat) (hi : w.calls.get? i = some .notStarted)
      (hl : w.lock = true) :
      LockStep w { lock := true, calls := w.calls.set i .rejected }
  | acquire (w : LockWorld) (i : Nat) (hi : w.calls.get? i = some .notStarted)
      (hl : w.lock = false) :
      LockStep w { lock := true, calls := w.calls.set i .inFlight }
  | finish (w : LockWorld) (i : Nat) (hi : w.calls.get? i = some .inFlight) :
      LockStep w { lock := false, calls := w.calls.set i .completed }

/-- Initial interleaving state: lock free, `n` callers not yet started. -/
def lockInit (n : Nat) : LockWorld :=
  { lock := false, calls := List.replicate n .notStarted }

/-- States reachable from the initial state by interleaved steps. -/
def LockReachable (n : Nat) (w : LockWorld) : Prop :=
  Relation.ReflTransGen LockStep (lockInit n) w

/-- At most one caller is past the lock check and before completion. -/
def AtMostOneInFlight (w : LockWorld) : Prop :=
  ∀ i j, w.calls.get? i = some .inFlight → w.calls.get? j = some .inFlight → i = j

/-- The mutual-exclusion invariant: in-flight callers are unique, and the
lock is held exactly while some caller is in flight. -/
def LockInv (w : LockWorld) : Prop :=
  AtMostOneInFlight w ∧
    (w.lock = false → ∀ i, w.calls.get? i ≠ some .inFlight) ∧
    (w.lock = true → ∃ i, w.calls.get? i = some .inFlight)

/-- The invariant holds initially. -/
theorem lockInv_init (n : Nat) : LockInv (lockInit n) := by
  have hall : ∀ i, (lockInit n).calls.get? i ≠ some CallStatus.inFlight := by
    intro i hi
    have hmem := List.get?_mem hi
    have := List.eq_of_mem_replicate hmem
    simp at this
  refine ⟨?_, ?_, ?_⟩
  · intro i j hi _
    exact absurd hi (hall i)
  · intro _ i
    exact hall i
  · intro hf
    exact absurd hf (by simp [lockInit])

/-- The invariant is preserved by every step. -/
theorem lockInv_step (w w2 : LockWorld) (hs : LockStep w w2) (hinv : LockInv w) :
    LockInv w2 := by
  obtain ⟨h1, h2, h3⟩ := hinv
  cases hs with
  | reject i hi hl =>
    refine ⟨?_, ?_, ?_⟩
    · intro a b ha hb
      dsimp only at ha hb
      have ha2 : w.calls.get? a = some .inFlight := by
        rcases eq_or_ne i a with rfl | hne
        · rw [List.get?_set_eq, hi] at ha
          simp at ha
        · rwa [List.get?_set_ne _ _ hne] at ha
      have hb2 : w.calls.get? b = some .inFlight := by
        rcases eq_or_ne i b with rfl | hne
        · rw [List.get?_set_eq, hi] at hb
          simp at hb
        · rwa [List.get?_set_ne _ _ hne] at hb
      exact h1 a b ha2 hb2
    · intro hf
      exact absurd hf (by simp)
    · intro _
      obtain ⟨j, hj⟩ := h3 hl
      have hij : i ≠ j := by
        intro he
        rw [he, hj] at hi
        simp at hi
      refine ⟨j, ?_⟩
      dsimp only
      rw [List.get?_set_ne _ _ hij]
      exact hj
  | acquire i hi hl =>
    refine ⟨?_, ?_, ?_⟩
    · intro a b ha hb
      dsimp only at ha hb
      have hano := h2 hl
      have ha2 : a = i := by
        by_contra hne
        rw [List.get?_set_ne _ _ (fun he => hne he.symm)] at ha
        exact hano a ha
      have hb2 : b = i := by
        by_contra hne
        rw [List.get?_set_ne _ _ (fun he => hne he.symm)] at hb
        exact hano b hb
      rw [ha2, hb2]
    · intro hf
      exact absurd hf (by simp)
    · intro _
      refine ⟨i, ?_⟩
      dsimp only
      rw [List.get?_set_eq, hi]
      rfl
  | finish i hi =>
    have hnone : ∀ a, (w.calls.set i CallStatus.completed).get? a ≠
        some CallStatus.inFlight := by
      intro a ha
      rcases eq_or_ne i a with rfl | hne
      · rw [List.get?_set_eq, hi] at ha
        simp at ha
      · rw [List.get?_set_ne _ _ hne] at ha
        exact absurd (h1 a i ha hi) (fun he => hne he.symm)
    refine ⟨?_, ?_, ?_⟩
    · intro a b ha _
      exact absurd ha (hnone a)
    · intro _ a
      exact hnone a
    · intro hf
      exact absurd hf (by simp)

/-- Every reachable interleaving state satisfies the invariant. -/
theorem lockInv_reachable (n : Nat) (w : LockWorld) (hr : LockReachable n w) :
    LockInv w := by
  induction hr with
  | refl => exact lockInv_init n
  | tail _ hstep ih => exact lockInv_step _ _ hstep ih

/-- C2: in every interleaving of `loginInteractive()` calls from the initial
state, at most one call is past the lock check and before completion; while
one is in flight the lock is observed held and the only step available to a
newly arriving caller is immediate rejection with the
login-already-in-progress error; once no call is in flight the lock is
observed free and a new caller can acquire it; and in the embedded method a
call that finds the lock held returns the login-already-in-progress error
with the state untouched, while every completed call leaves the lock flag
exactly as it found it (the `finally` clears it on success, failure, and
throw alike). -/
theorem C2_confirmed (n : Nat) (w : LockWorld) (hr : LockReachable n w) :
    AtMostOneInFlight w ∧
      (∀ i j, w.calls.get? j = some .inFlight → w.calls.get? i = some .notStarted →
        w.lock = true ∧
          LockStep w { lock := true, calls := w.calls.set i .rejected }) ∧
      ((∀ j, w.calls.get? j ≠ some .inFlight) →
        ∀ i, w.calls.get? i = some .notStarted →
          w.lock = false ∧
            LockStep w { lock := true, calls := w.calls.set i .inFlight }) ∧
      (∀ now io v, initCheckOk v.svc = true → v.svc.isLoginInProgress = true →
        loginInteractive now io v = (.error .loginAlreadyInProgress, v)) ∧
      (∀ now io v,
        (((loginInteractive now io v).2).svc.isLoginInProgress) =
          v.svc.isLoginInProgress) := by
  obtain ⟨h1, h2, h3⟩ := lockInv_reachable n w hr
  refine ⟨h1, ?_, ?_, ?_, ?_⟩
  · intro i j hj hi
    have hl : w.lock = true := by
      cases hb : w.lock with
      | false => exact absurd hj (h2 hb j)
      | true => rfl
    exact ⟨hl, LockStep.reject w i hi hl⟩
  · intro hnone i hi
    have hl : w.lock = false := by
      cases hb : w.lock with
      | true =>
        obtain ⟨j, hj⟩ := h3 hb
        exact absurd hj (hnone j)
      | false => rfl
    exact ⟨hl, LockStep.acquire w i hi hl⟩
  · intro now io v hini hlip
    rw [loginInteractive, if_neg (by simp [hini]), if_pos hlip]
  · intro now io v
    rw [loginInteractive]
    by_cases hini : initCheckOk v.svc = true
    · by_cases hlip : v.svc.isLoginInProgress = true
      · rw [if_neg (by simp [hini]), if_pos hlip]
      · rw [if_neg (by simp [hini]), if_neg hlip]
        have hv : v.svc.isLoginInProgress = false := by
          cases hb : v.svc.isLoginInProgress with
          | false => rfl
          | true => exact absurd hb hlip
        rw [hv]
    · rw [if_pos (by simp [hini])]

/-- C2 witness: from the initial two-caller state (reachable by reflexivity)
the theorem yields uniqueness of in-flight callers and an enabled
lock-acquisition step for caller 0. -/
theorem C2_confirmed_witness :
    AtMostOneInFlight (lockInit 2) ∧
      ((lockInit 2).lock = false ∧
        LockStep (lockInit 2)
          { lock := true, calls := (lockInit 2).calls.set 0 .inFlight }) := by
  have h := C2_confirmed 2 (lockInit 2) Relation.ReflTransGen.refl
  refine ⟨h.1, h.2.2.1 ?_ 0 ?_⟩
  · intro j hj
    have hmem := List.get?_mem hj
    have := List.eq_of_mem_replicate hmem
    simp at this
  · rfl

/-! ### C4: the interaction-in-progress retry recursion -/

/-- A world with an initialized service, one account, and an empty cache —
the state from which `getAccessToken()` keeps retrying when the provider
persistently reports interaction-in-progress. -/
def w4 : World :=
  { svc := svcD, accounts := ["alice"], sessionKeys := [], localKeys := []
    silentCalls := 0, interactiveCalls := 0, constructions := 0 }

/-- Divergence of the fueled `getAccessToken`: every finite fuel bound is
exhausted, i.e. the recursive retry chain is longer than every finite
bound. -/
def GetAccessTokenDiverges (now : Int) (oracle : Nat → SilentOutcome)
    (io : Nat → InteractiveOutcome) (w : World) : Prop :=
  ∀ fuel, (getAccessToken fuel now oracle io w).1 = .error .fuelExhausted

/-- Under the persistently-stuck provider, each `getAccessToken` step
returns to the same service state (recovery clears an already-empty cache
and an already-free lock) and recurses, so every fuel bound is exhausted. -/
theorem persistent_iip_loop (fuel n : Nat) :
    (getAccessToken fuel 0 (fun _ => .interactionInProgress)
        (fun _ => .success { accessToken := "t", expiresOn := some 1 })
        { w4 with silentCalls := n }).1 = .error .fuelExhausted := by
  induction fuel generalizing n with
  | zero => rfl
  | succ f ih =>
    have hstep : getAccessToken (f + 1) 0 (fun _ => .interactionInProgress)
        (fun _ => .success { accessToken := "t", expiresOn := some 1 })
        { w4 with silentCalls := n } =
        getAccessToken f 0 (fun _ => .interactionInProgress)
          (fun _ => .success { accessToken := "t", expiresOn := some 1 })
          { w4 with silentCalls := n + 1 } := rfl
    rw [hstep]
    exact ih (n + 1)

/-- C4 counterexample: with a provider that reports interaction-in-progress
on every silent acquisition (and an account present so the silent path keeps
reaching the provider), the recursive `getAccessToken()` retry chain never
terminates — the recovery clears only the local lock, which the silent path
never consults, so the claim fails for this provider behaviour even though
its interactive call would succeed. -/
theorem C4_counterexample :
    GetAccessTokenDiverges 0 (fun _ => .interactionInProgress)
      (fun _ => .success { accessToken := "t", expiresOn := some 1 }) w4 := by
  intro fuel
  exact persistent_iip_loop fuel 0

/-- `acquireTokenSilent` never produces the fuel-exhaustion artifact. -/
theorem acquireTokenSilent_no_fuel (now : Int) (accounts : List String)
    (o : SilentOutcome) (s : ServiceState) :
    (acquireTokenSilent now accounts o s).result ≠ .error .fuelExhausted := by
  unfold acquireTokenSilent
  split
  · simp
  split
  · simp
  split
  · simp
  · cases o <;> simp

/-- If `acquireTokenSilent` signals `INTERACTION_IN_PROGRESS_RESOLVED`, the
provider call happened and reported interaction-in-progress, and the whole
step is the recovery step. -/
theorem acquireTokenSilent_iip_cases (now : Int) (accounts : List String)
    (o : SilentOutcome) (s : ServiceState) :
    (acquireTokenSilent now accounts o s).result = .error .interactionInProgressResolved →
      o = .interactionInProgress ∧
        acquireTokenSilent now accounts o s =
          ⟨.error .interactionInProgressResolved, true, handleInteractionInProgress s⟩ := by
  unfold acquireTokenSilent
  split
  · intro h
    exact absurd h (by simp)
  split
  · intro h
    exact absurd h (by simp)
  split
  · intro h
    exact absurd h (by simp)
  · cases o with
    | success r =>
      intro h
      exact absurd h (by simp)
    | interactionInProgress =>
      intro _
      exact ⟨rfl, rfl⟩
    | interactionRequired =>
      intro h
      exact absurd h (by simp)
    | otherFailure =>
      intro h
      exact absurd h (by simp)

/-- World version of `acquireTokenSilent_iip_cases`: the silent-call counter
advanced by one and the recovery ran. -/
theorem acquireTokenSilentW_iip_inv (now : Int) (o : SilentOutcome) (w : World)
    (h : (acquireTokenSilentW now o w).1 = .error .interactionInProgressResolved) :
    o = .interactionInProgress ∧
      (acquireTokenSilentW now o w).2 =
        { w with
          svc := handleInteractionInProgress w.svc
          silentCalls := w.silentCalls + 1 } := by
  obtain ⟨ho, heq⟩ := acquireTokenSilent_iip_cases now w.accounts o w.svc h
  exact ⟨ho, by simp [acquireTokenSilentW, heq]⟩

/-- `loginInteractiveBody` never produces the fuel-exhaustion artifact. -/
theorem loginInteractiveBody_no_fuel (now : Int) (io : InteractiveOutcome) (w : World) :
    (loginInteractiveBody now io w).1 ≠ .error .fuelExhausted := by
  unfold loginInteractiveBody
  split
  · simp
  · split <;> simp

/-- `loginInteractive` never produces the fuel-exhaustion artifact. -/
theorem loginInteractive_no_fuel (now : Int) (io : InteractiveOutcome) (w : World) :
    (loginInteractive now io w).1 ≠ .error .fuelExhausted := by
  rw [loginInteractive]
  split
  · simp
  split
  · simp
  · exact loginInteractiveBody_no_fuel now io _

/-- C4 (amended): the retry chain is bounded by the number of consecutive
interaction-in-progress responses: whenever some later silent provider call
(the N-th counting from the next one) yields any outcome other than
interaction-in-progress, `getAccessToken` with more than N units of fuel
terminates — it returns a real result or error, never the fuel-exhaustion
artifact.  (Only a provider persistently reporting interaction-in-progress —
the counterexample — drives the recursion forever.) -/
theorem C4_corrected (now : Int) (oracle : Nat → SilentOutcome)
    (io : Nat → InteractiveOutcome) (w : World) (N fuel : Nat)
    (h : oracle (w.silentCalls + N) ≠ .interactionInProgress)
    (hfuel : N < fuel) :
    (getAccessToken fuel now oracle io w).1 ≠ .error .fuelExhausted := by
  induction N generalizing w fuel with
  | zero =>
    cases fuel with
    | zero => omega
    | succ f =>
      rw [getAccessToken]
      rcases hp : acquireTokenSilentW now (oracle w.silentCalls) w with ⟨r, w2⟩
      cases r with
      | ok t => simp
      | error e =>
        cases e with
        | notInitialized => simp
        | noAccounts =>
          dsimp only
          rw [if_pos (by simp)]
          rcases hq : loginInteractive now (io w2.interactiveCalls) w2 with ⟨qr, qw⟩
          have hnf := loginInteractive_no_fuel now (io w2.interactiveCalls) w2
          rw [hq] at hnf
          cases qr with
          | ok r2 => simp
          | error e2 => simpa using hnf
        | interactionRequired =>
          dsimp only
          rw [if_pos (by simp)]
          rcases hq : loginInteractive now (io w2.interactiveCalls) w2 with ⟨qr, qw⟩
          have hnf := loginInteractive_no_fuel now (io w2.interactiveCalls) w2
          rw [hq] at hnf
          cases qr with
          | ok r2 => simp
          | error e2 => simpa using hnf
        | silentRefreshFailed =>
          dsimp only
          rw [if_pos (by simp)]
          rcases hq : loginInteractive now (io w2.interactiveCalls) w2 with ⟨qr, qw⟩
          have hnf := loginInteractive_no_fuel now (io w2.interactiveCalls) w2
          rw [hq] at hnf
          cases qr with
          | ok r2 => simp
          | error e2 => simpa using hnf
        | interactionInProgressResolved =>
          obtain ⟨ho, -⟩ := acquireTokenSilentW_iip_inv now (oracle w.silentCalls) w
            (by rw [hp])
          rw [Nat.add_zero] at h
          exact absurd ho h
        | loginAlreadyInProgress => simp
        | windowClosedOrInterrupted => simp
        | cancelled => simp
        | redirectInitiated => simp
        | providerError m => simp
        | fuelExhausted =>
          have := acquireTokenSilent_no_fuel now w.accounts (oracle w.silentCalls) w.svc
          have hres : (acquireTokenSilentW now (oracle w.silentCalls) w).1 =
              .error .fuelExhausted := by rw [hp]
          exact absurd hres this
  | succ N1 ih =>
    cases fuel with
    | zero => omega
    | succ f =>
      rw [getAccessToken]
      rcases hp : acquireTokenSilentW now (oracle w.silentCalls) w with ⟨r, w2⟩
      cases r with
      | ok t => simp
      | error e =>
        cases e with
        | notInitialized => simp
        | noAccounts =>
          dsimp only
          rw [if_pos (by simp)]
          rcases hq : loginInteractive now (io w2.interactiveCalls) w2 with ⟨qr, qw⟩
          have hnf := loginInteractive_no_fuel now (io w2.interactiveCalls) w2
          rw [hq] at hnf
          cases qr with
          | ok r2 => simp
          | error e2 => simpa using hnf
        | interactionRequired =>
          dsimp only
          rw [if_pos (by simp)]
          rcases hq : loginInteractive now (io w2.interactiveCalls) w2 with ⟨qr, qw⟩
          have hnf := loginInteractive_no_fuel now (io w2.interactiveCalls) w2
          rw [hq] at hnf
          cases qr with
          | ok r2 => simp
          | error e2 => simpa using hnf
        | silentRefreshFailed =>
          dsimp only
          rw [if_pos (by simp)]
          rcases hq : loginInteractive now (io w2.interactiveCalls) w2 with ⟨qr, qw⟩
          have hnf := loginInteractive_no_fuel now (io w2.interactiveCalls) w2
          rw [hq] at hnf
          cases qr with
          | ok r2 => simp
          | error e2 => simpa using hnf
        | interactionInProgressResolved =>
          dsimp only
          rw [if_neg (by simp), if_pos rfl]
          obtain ⟨ho, hw2⟩ := acquireTokenSilentW_iip_inv now (oracle w.silentCalls) w
            (by rw [hp])
          have hw2b : w2 = { w with
              svc := handleInteractionInProgress w.svc
              silentCalls := w.silentCalls + 1 } := by
            rw [hp] at hw2
            exact hw2
          have hsc : w2.silentCalls = w.silentCalls + 1 := by rw [hw2b]
          apply ih
          · have harg : w2.silentCalls + N1 = w.silentCalls + (N1 + 1) := by omega
            rw [harg]
            exact h
          · omega
        | loginAlreadyInProgress => simp
        | windowClosedOrInterrupted => simp
        | cancelled => simp
        | redirectInitiated => simp
        | providerError m => simp
        | fuelExhausted =>
          have := acquireTokenSilent_no_fuel now w.accounts (oracle w.silentCalls) w.svc
          have hres : (acquireTokenSilentW now (oracle w.silentCalls) w).1 =
              .error .fuelExhausted := by rw [hp]
          exact absurd hres this

/-- C4 witness: with a provider whose very next silent call fails with a
non-interaction-in-progress error, one unit of fuel suffices — the call
terminates (via escalation) instead of exhausting fuel. -/
theorem C4_corrected_witness :
    (fun (_ : Nat) => SilentOutcome.otherFailure) (w4.silentCalls + 0) ≠
        .interactionInProgress ∧
      (getAccessToken 1 0 (fun _ => SilentOutcome.otherFailure)
          (fun _ => InteractiveOutcome.success { accessToken := "t", expiresOn := some 1 })
          w4).1 ≠ .error .fuelExhausted :=
  ⟨by decide,
    C4_corrected 0 (fun _ => SilentOutcome.otherFailure)
      (fun _ => InteractiveOutcome.success { accessToken := "t", expiresOn := some 1 })
      w4 0 1 (by decide) (by decide)⟩

end MsalAuth
